import Mathlib

/-!
Verification of the Pico Network Manager library (`src/NetworkManager.py`)
against its natural-language specification.

The development shallowly embeds the two classes of the source file:

* `NetworkManager` — the connectivity state machine with its captive-portal
  HTTP handler (station/AP interfaces, config load, AP start/stop, the
  `run` driving loop and its cleanup), and
* `NetworkManagerDNS` — the captive-portal DNS redirector
  (`handle_dns_query`, `_decode_domain_name`, and the non-blocking socket
  wrappers `_receive_from` / `_send_to`).

Bytes are modelled as `List Nat`, text as `String` / `List Char`.
External effects (the `network`, `socket`, `uos` and `uasyncio` modules,
`ConfigManager`, the optional STA web server) are modelled by explicit
environment records whose fields give the outcome of each external call.
Hardware model used throughout: deactivating an interface
(`active(False)`) drops any established link on it.
-/

/-! ## Generic helpers: Python string primitives on `List Char` -/

/-- `listStartsWith pat s`: `s` begins with `pat` (Python `s.startswith(pat)`). -/
def listStartsWith : List Char → List Char → Bool
  | [], _ => true
  | _ :: _, [] => false
  | p :: ps, c :: cs => p == c && listStartsWith ps cs

/-- Index of the first occurrence of `pat` in `s`, if any
(the non-negative case of Python `s.find(pat)`). -/
def findIdxAux (pat : List Char) : List Char → Nat → Option Nat
  | s, i =>
    if listStartsWith pat s then some i
    else
      match s with
      | [] => none
      | _ :: t => findIdxAux pat t (i + 1)

/-- `pat in s` for Python strings. -/
def listContainsSub (s pat : List Char) : Bool :=
  (findIdxAux pat s 0).isSome

/-- `pat in s` on `String` (Python `pat in s`). -/
def strContains (s pat : String) : Bool :=
  listContainsSub s.data pat.data

/-- Python `s.split("&")`. -/
def pySplitAmp : List Char → List (List Char)
  | [] => [[]]
  | c :: t =>
    let r := pySplitAmp t
    if c = '&' then [] :: r
    else
      match r with
      | [] => [[c]]
      | h :: rest => (c :: h) :: rest

/-- Python `kv.split("=", 1)` under the guard `"=" in kv`:
splits at the first `'='`. -/
def splitFirstEq : List Char → List Char × List Char
  | [] => ([], [])
  | c :: t =>
    if c = '=' then ([], t)
    else
      let (k, v) := splitFirstEq t
      (c :: k, v)

/-- Python `value.replace("+", " ")`: the pattern and replacement both have
length 1, so the scan replaces characters one for one. -/
def replacePlusSpace : List Char → List Char
  | [] => []
  | c :: t => (if c == '+' then ' ' else c) :: replacePlusSpace t

/-- Python `value.replace("%20", " ")`: left-to-right, non-overlapping. -/
def replace20Space : List Char → List Char
  | [] => []
  | '%' :: '2' :: '0' :: t => ' ' :: replace20Space t
  | c :: t => c :: replace20Space t

/-- The value decoding applied by `connect_to_wifi` (line 258 of the source):
`value.replace("+", " ").replace("%20", " ")`. -/
def decode_value (v : List Char) : List Char :=
  replace20Space (replacePlusSpace v)

/-- Spec-side decoder, following the specification's words: every `'+'` and
every literal `"%20"` becomes one space, in a single left-to-right pass;
all other characters (and in particular all other percent-escapes) are
left untouched. -/
def specDecode : List Char → List Char
  | [] => []
  | '%' :: '2' :: '0' :: t => ' ' :: specDecode t
  | '+' :: t => ' ' :: specDecode t
  | c :: t => c :: specDecode t

/-! ## DNS redirector: `NetworkManagerDNS` -/

/-- `_decode_domain_name`'s index walk, lines 548-557 of the source:
starting at index `i`, read a length byte `L`; `0` terminates; otherwise
take the next `L` bytes as a label and continue behind them.  Reading past
the end of `q` raises `IndexError`, modelled as `none`.  The walk is driven
by a fuel argument: every step either terminates or strictly advances the
index by at least 2 while staying in bounds, so `q.length + 1` steps always
suffice and the fuel never runs out on a walk the source would finish. -/
def decodeLabelsF (q : List Nat) : Nat → Nat → Option (List (List Nat))
  | _, 0 => none
  | i, fuel + 1 =>
    match q.get? i with
    | none => none
    | some 0 => some []
    | some (l + 1) =>
      match decodeLabelsF q (i + (l + 1) + 1) fuel with
      | none => none
      | some rest => some (((q.drop (i + 1)).take (l + 1)) :: rest)

/-- `NetworkManagerDNS._decode_domain_name` applied to the query section:
`some labels` when the walk terminates, `none` when it raises `IndexError`. -/
def decode_domain_name (q : List Nat) : Option (List (List Nat)) :=
  decodeLabelsF q 0 (q.length + 1)

/-- `NetworkManagerDNS.handle_dns_query`, lines 513-546 of the source.
`answer_ip` stands for `socket.inet_aton(self.dns_ip)` (4 bytes).
The only fallible step of the `try` block is `_decode_domain_name`:
on failure the `except` branch returns `b''`. -/
def handle_dns_query (answer_ip : List Nat) (data : List Nat) : List Nat :=
  let transaction_id := data.take 2
  let flags : List Nat := [0x81, 0x80]
  let question_count := (data.drop 4).take 2
  let answer_count : List Nat := [0x00, 0x01]
  let authority_rrs : List Nat := [0x00, 0x00]
  let additional_rrs : List Nat := [0x00, 0x00]
  let query_section := data.drop 12
  match decode_domain_name query_section with
  | none => []
  | some _ =>
    let answer_name : List Nat := [0xc0, 0x0c]
    let answer_type : List Nat := [0x00, 0x01]
    let answer_class : List Nat := [0x00, 0x01]
    let ttl : List Nat := [0x00, 0x00, 0x00, 0x3c]
    let data_length : List Nat := [0x00, 0x04]
    transaction_id ++ flags ++ question_count ++ answer_count ++
      authority_rrs ++ additional_rrs ++ query_section ++
      answer_name ++ answer_type ++ answer_class ++ ttl ++
      data_length ++ answer_ip

/-- Outcome of one `recvfrom` attempt on the non-blocking UDP socket. -/
inductive RecvAttempt where
  | ok (data : List Nat) (addr : Nat)
  | err (errno : Nat)
deriving DecidableEq

/-- Outcome of one `sendto` attempt on the non-blocking UDP socket. -/
inductive SendAttempt where
  | ok
  | err (errno : Nat)
deriving DecidableEq

/-- Result of a would-block retry loop: a value together with the number of
`asyncio.sleep(0)` yields performed, a re-raised `OSError` errno, or
`waiting` when the supplied attempt list ran out (the loop would still be
polling). -/
inductive LoopOutcome (α : Type) where
  | done (val : α) (yields : Nat)
  | raised (errno : Nat) (yields : Nat)
  | waiting
deriving DecidableEq

/-- Adds the one `asyncio.sleep(0)` yield taken after an EAGAIN attempt. -/
def bumpYield {α : Type} : LoopOutcome α → LoopOutcome α
  | .done v y => .done v (y + 1)
  | .raised e y => .raised e (y + 1)
  | .waiting => .waiting

/-- `NetworkManagerDNS._receive_from`, lines 491-500 of the source:
loop over `recvfrom` attempts; success returns the datagram and address;
`OSError` with errno 11 yields once and retries; any other errno is
re-raised. -/
def receive_from : List RecvAttempt → LoopOutcome (List Nat × Nat)
  | [] => .waiting
  | .ok d a :: _ => .done (d, a) 0
  | .err e :: rest =>
    if e = 11 then bumpYield (receive_from rest)
    else .raised e 0

/-- `NetworkManagerDNS._send_to`, lines 502-511 of the source: same retry
structure around `sendto`; returns after the first successful send. -/
def send_to : List SendAttempt → LoopOutcome Unit
  | [] => .waiting
  | .ok :: _ => .done () 0
  | .err e :: rest =>
    if e = 11 then bumpYield (send_to rest)
    else .raised e 0

/-! ## Connectivity state machine: `NetworkManager` data model -/

/-- Device/interface state owned by a `NetworkManager` instance.
`sta_active`/`ap_active` are the radios' `active()` flags,
`sta_connected`/`ap_connected` the interfaces' `isconnected()` results,
`server_running` whether `self.server` holds a live listener,
`dns_running` whether `dns_server.udp_server` is a live socket,
`has_web` whether `self.sta_web_server` was supplied,
`config_files` the contents of the `/config` directory. -/
structure NMState where
  sta_active : Bool
  sta_connected : Bool
  ap_active : Bool
  ap_connected : Bool
  ip_address : Option String
  server_running : Bool
  dns_running : Bool
  has_web : Bool
  config_files : List String
  ap_ssid : String
  ap_password : String
deriving DecidableEq

/-- One discovered network, as used by `scan_networks`
(`net[0].decode()` and `net[3]`). -/
structure ScanNet where
  ssid : String
  rssi : Int
deriving DecidableEq

deriving instance DecidableEq for Except

/-- Outcomes of the external calls the source makes: socket reads/writes of
the HTTP handler, the station connect attempt, `sta_if.scan()`,
`ConfigManager` reads/writes, the saved credentials, the three connection
attempts of `load_config`, `asyncio.start_server`, and the two stop
operations of `run`'s cleanup that the source leaves unguarded. -/
structure Env where
  readResult : Except String String
  writeOk : Bool
  connectOk : Bool
  staIp : String
  scanResult : Except String (List ScanNet)
  saveOk : Bool
  webStartOk : Bool
  configReadOk : Bool
  configSsid : String
  configPassword : String
  a1 : Bool
  a2 : Bool
  a3 : Bool
  portalBindOk : Bool
  appStopFails : Bool
  dnsCloseFails : Bool
deriving DecidableEq

/-- Observable actions (radio operations, service starts/stops, and the
status messages the source prints). -/
inductive Ev where
  | noSavedConfig
  | noSsid
  | loadError
  | attemptFail
  | connected
  | allAttemptsFailed
  | webStarted
  | webStartError
  | apStarted
  | apPwTooShort
  | apNotEnabled
  | apStopped
  | staNotConnected
  | staDisconnected
  | portalNoIp
  | portalServing
  | portalSleep
  | portalStartError
  | dnsStarted
  | dnsStopped
  | serverStopped
  | serverAlreadyStopped
  | configSaved
  | saveError
  | staConnect (ssid password : String)
  | stopApp
  | cleanupError
deriving DecidableEq

/-- `self.VERSION`. -/
def VERSION : String := "1.0.1"

/-- `NetworkManager.html_template`, lines 205-221 of the source
(an f-string; `\n` plus the literal's indentation reproduced). -/
def html_template (title body : String) : String :=
  "\n        <html>\n        <head><title>" ++ title ++ "</title></head>\n        <body>\n            <h1>" ++ title ++ "</h1>\n            <p>Welcome to the Goat - Captive Portal.</p>\n            <p><a href=\"/\">Home</a></p>\n            " ++ body ++ "\n            <h1>Information</h1>\n            <p>Check out other Goat Technologies offerings at <a href=\"https://goatbot.org/\">Goatbot.org</a></p>\n            <p><b>Version " ++ VERSION ++ "</b><br>\n            <b>© (c) 2024-2025 Goat Technologies</b></p>\n        </body>\n        </html>\n        "

/-- `NetworkManager.serve_index`, lines 361-377 of the source.
`files` is the result of `uos.listdir(self.config_directory)`. -/
def serve_index (files : List String) : String :=
  let body0 := "<p>Welcome to the Goat - Captive Portal.<br>\n        Use the portal to connect your Goat device to your wireless network.</p>"
  let body1 :=
    if "network_config.conf" ∈ files then
      body0 ++ "<h2>Reconnect To Saved Network</h2>\n            <p>An existing saved wireless network connection is configured for this system.<br>\n            Click the 'Reconnect' button below to attempt to reconnect to your saved network.</p>\n            <p><form action=\"/reconnect\" method=\"post\">\n            <button type=\"submit\">Reconnect</button>\n            </form></p>"
    else body0
  let body2 := body1 ++ "<h2>Connect To A Network</h2>\n        <p>Click the link below to scan for networks:</p>\n        <p><a href='/scan'>Start Scan</a></p>"
  html_template "Goat - Captive Portal" body2

/-- Form rendering of `scan_networks`' per-network loop, lines 229-238. -/
def scan_forms : List ScanNet → String
  | [] => ""
  | n :: rest =>
    "\n                    <form action='/connect' method='POST'>\n                        <label>" ++ n.ssid ++ " - Signal Strength: " ++ toString n.rssi ++ "</label><br>\n                        <input type='hidden' name='ssid' value='" ++ n.ssid ++ "'>\n                        <input type='password' name='password' placeholder='Password'><br>\n                        <button type='submit'>Connect</button>\n                    </form><br>\n                " ++ scan_forms rest

/-- `NetworkManager.scan_networks`, lines 223-247: activates the station
radio, scans (errors render an inline message), and in `finally`
deactivates the station radio again. -/
def scan_networks (env : Env) (st : NMState) : String × NMState × List Ev :=
  let head := "<h2>Network Scan</h2><p>Network scan complete.</p><h3>Available Wi-Fi Networks</h3><p>The following wi-fi networks were detected:"
  let core :=
    match env.scanResult with
    | .ok nets => head ++ scan_forms nets
    | .error e => head ++ "<h2>Scan Error</h2><p>An error occurred while scanning Wi-Fi networks.<br>Error: " ++ e ++ "</p>"
  let tail := "<h3>Information</h3>\n        <p>If the network you want is not listed, click <a href=\"/scan\">Rescan</a> to scan again.</p>\n        <p><a href='/'>Go Back</a></p>\n        "
  let st2 := {st with sta_active := false, sta_connected := false}
  (html_template "Goat - Captive Portal" (core ++ tail), st2, [])

/-- Body parsing of `connect_to_wifi`, lines 252-258: body starts after the
first `"\r\n\r\n"` (Python `find` returns `-1` when absent, so the body
then starts at index 3); split on `"&"`; pairs containing `"="` are split
at the first `"="`; each value has `"+"` then `"%20"` replaced by spaces. -/
def parse_params (request : String) : List (String × String) :=
  let bodyStart : Nat :=
    match findIdxAux "\r\n\r\n".data request.data 0 with
    | some i => i + 4
    | none => 3
  let body := request.data.drop bodyStart
  (pySplitAmp body).filterMap (fun kv =>
    if kv.contains '=' then
      let (k, v) := splitFirstEq kv
      some (String.mk k, String.mk (decode_value v))
    else none)

/-- `params.get(key, "")` on the dict built by the parsing loop: later
assignments to the same key overwrite earlier ones. -/
def dictGet (params : List (String × String)) (key dflt : String) : String :=
  params.foldl (fun acc p => if p.1 = key then p.2 else acc) dflt

/-- `NetworkManager.start_ap`, lines 124-146: passwords shorter than
8 characters are reported and nothing else happens; otherwise the AP
radio is configured and activated and `ip_address` becomes the fixed
AP address `ifconfig()[0] = "192.168.4.1"` (radio calls modelled as
succeeding; their failures are only printed by the source). -/
def start_ap (st : NMState) : NMState × List Ev :=
  if st.ap_password.length < 8 then (st, [Ev.apPwTooShort])
  else ({st with ap_active := true, ip_address := some "192.168.4.1"}, [Ev.apStarted])

/-- `NetworkManager.stop_ap`, lines 148-163: a no-op unless
`ap_if.isconnected()`; otherwise clears and deactivates the AP radio and
drops `ip_address`. -/
def stop_ap (st : NMState) : NMState × List Ev :=
  if st.ap_connected then
    ({st with ap_active := false, ap_connected := false, ip_address := none}, [Ev.apStopped])
  else (st, [Ev.apNotEnabled])

/-- `NetworkManager.disconnect_from_wifi`, lines 348-359: a no-op unless
`sta_if.isconnected()`; otherwise deactivates the station radio and drops
`ip_address`. -/
def disconnect_from_wifi (st : NMState) : NMState × List Ev :=
  if st.sta_connected then
    ({st with sta_active := false, sta_connected := false, ip_address := none}, [Ev.staDisconnected])
  else (st, [Ev.staNotConnected])

/-- `NetworkManagerDNS.stop_dns`, lines 559-564: closes and clears the UDP
socket when one is held, silent otherwise. -/
def stop_dns (st : NMState) : NMState × List Ev :=
  if st.dns_running then ({st with dns_running := false}, [Ev.dnsStopped])
  else (st, [])

/-- `NetworkManager.stop_captive_portal_server`, lines 394-404: closes
`self.server` when set, reports "already stopped" otherwise. -/
def stop_captive_portal_server (st : NMState) : NMState × List Ev :=
  if st.server_running then ({st with server_running := false}, [Ev.serverStopped])
  else (st, [Ev.serverAlreadyStopped])

/-- `NetworkManager.save_config`, lines 109-122: writes the credentials
through `ConfigManager` (creating the config file); failures are only
printed. -/
def save_config (env : Env) (st : NMState) : NMState × List Ev :=
  if env.saveOk then
    ({st with config_files :=
        if "network_config.conf" ∈ st.config_files then st.config_files
        else st.config_files ++ ["network_config.conf"]}, [Ev.configSaved])
  else (st, [Ev.saveError])

/-- The `finally` block of `connect_to_wifi`, lines 293-312, taken when the
station connected: save the credentials (guarded), stop the portal HTTP
server, the DNS redirector and the AP (one shared guard), then start the
STA web server when one was supplied (guarded). -/
def connect_finally (env : Env) (st : NMState) : NMState × List Ev :=
  let (st1, t1) := save_config env st
  let (st2, t2) := stop_captive_portal_server st1
  let (st3, t3) := stop_dns st2
  let (st4, t4) := stop_ap st3
  let (st5, t5) :=
    if st4.has_web then
      if env.webStartOk then ({st4 with server_running := true}, [Ev.webStarted])
      else (st4, [Ev.webStartError])
    else (st4, [])
  (st5, t1 ++ t2 ++ t3 ++ t4 ++ t5)

/-- `NetworkManager.connect_to_wifi`, lines 249-312.  With both fields
present the station radio is activated and a connect issued; the link
comes up within the timeout iff `env.connectOk`.  With either field
missing (Python falsiness of `""`), the source deactivates the station
radio and returns an error page; the `finally` block then sees
`isconnected()` false and does nothing. -/
def connect_to_wifi (request : String) (env : Env) (st : NMState) : String × NMState × List Ev :=
  let params := parse_params request
  let ssid := dictGet params "ssid" ""
  let password := dictGet params "password" ""
  if ssid ≠ "" ∧ password ≠ "" then
    let st1 := {st with sta_active := true}
    let evC := [Ev.staConnect ssid password]
    if env.connectOk then
      let st2 := {st1 with sta_connected := true, ip_address := some env.staIp}
      let page := html_template "Goat - Captive Portal"
        ("<h2>Connected</h2>\n                    <p>You successfully connected to " ++ ssid ++ ".</p>\n                    <h2>Information</h2>\n                    <p>The access point has been shut down and you can now close this page.</p>")
      let (st3, evF) := connect_finally env st2
      (page, st3, evC ++ evF)
    else
      let st2 := {st1 with sta_active := false, sta_connected := false}
      (html_template "Goat - Captive Portal"
        ("<h2>Connection Failed</h2>\n                    <p>Failed to connect to " ++ ssid ++ ".</p>"), st2, evC)
  else
    let st1 := {st with sta_active := false, sta_connected := false}
    (html_template "Goat - Captive Portal"
      "<h2>Connection Error</h2>\n                <p>The SSID or password for the wi-fi network was not provided.</p>", st1, [])

/-- Route dispatch of `NetworkManager.handle_request`, lines 172-194:
ordered substring matching on the decoded request text.  The
`POST /reconnect` branch embeds line 191, `await self.reconnect_to_wifi()`:
the method is declared with a required `request` parameter (line 314), so
the call itself raises `TypeError` before the method body runs — modelled
as `Except.error` with the state untouched. -/
def dispatch (request : String) (env : Env) (st : NMState) :
    Except String (String × NMState × List Ev) :=
  if strContains request "GET /generate_204" then
    .ok ("HTTP/1.1 204 No Content\r\n\r\n", st, [])
  else if strContains request "GET /connectivity-check" then
    .ok ("HTTP/1.1 204 No Content\r\n\r\n", st, [])
  else if strContains request "GET /hotspot-detect.html" then
    .ok ("HTTP/1.1 200 OK\r\nContent-Type: text/html\r\n\r\n" ++
      "<HTML><BODY><H1>Success</H1></BODY></HTML>", st, [])
  else if strContains request "GET /success.conf" then
    .ok ("HTTP/1.1 200 OK\r\nContent-Type: text/plain\r\n\r\n" ++
      "Microsoft Connect Test", st, [])
  else if strContains request "GET /ncsi.conf" then
    .ok ("HTTP/1.1 200 OK\r\nContent-Type: text/plain\r\n\r\n" ++
      "Microsoft NCSI", st, [])
  else if strContains request "GET /scan" then
    let (page, st1, tr) := scan_networks env st
    .ok ("HTTP/1.1 200 OK\r\nContent-Type: text/html\r\n\r\n" ++ page, st1, tr)
  else if strContains request "POST /connect" then
    let (page, st1, tr) := connect_to_wifi request env st
    .ok ("HTTP/1.1 200 OK\r\nContent-Type: text/html\r\n\r\n" ++ page, st1, tr)
  else if strContains request "POST /reconnect" then
    .error "TypeError: function takes 2 positional arguments but 1 were given"
  else
    .ok ("HTTP/1.1 200 OK\r\nContent-Type: text/html\r\n\r\n" ++
      serve_index st.config_files, st, [])

/-- What one run of `handle_request` did with the connection: the response
bytes delivered to the client (if any), whether the writer ended closed,
and whether an exception escaped to the caller. -/
structure HandleResult where
  written : Option String
  closed : Bool
  escaped : Bool
  stOut : NMState
deriving DecidableEq

/-- `NetworkManager.handle_request`, lines 165-203: `try` reads and
dispatches the request and writes the response; `except Exception`
swallows every error raised by those steps; `finally` closes the writer.
The close itself (`writer.close(); await writer.wait_closed()`) is a
plain uasyncio stream shutdown, modelled as non-raising.  The only
dispatch branch that raises (`POST /reconnect`) does so before touching
any state, so the pre-call state is kept on that path. -/
def handle_request (env : Env) (st : NMState) : HandleResult :=
  match env.readResult with
  | .error _ => { written := none, closed := true, escaped := false, stOut := st }
  | .ok request =>
    match dispatch request env st with
    | .error _ => { written := none, closed := true, escaped := false, stOut := st }
    | .ok (response, st1, _) =>
      if env.writeOk then
        { written := some response, closed := true, escaped := false, stOut := st1 }
      else
        { written := none, closed := true, escaped := false, stOut := st1 }

/-- The `while attempts < 3` loop of `load_config`, lines 76-98, over the
remaining attempts' outcomes: each attempt activates the station radio and
connects; a link within the timeout captures the IP and starts the STA web
server (when one was supplied) and leaves the loop. -/
def attempt_loop (env : Env) : NMState → List Bool → NMState × List Ev
  | st, [] => (st, [])
  | st, r :: rest =>
    let st1 := {st with sta_active := true}
    if r then
      let st2 := {st1 with sta_connected := true, ip_address := some env.staIp}
      if st2.has_web then
        if env.webStartOk then ({st2 with server_running := true}, [Ev.connected, Ev.webStarted])
        else (st2, [Ev.connected, Ev.webStartError])
      else (st2, [Ev.connected])
    else
      let (st', t) := attempt_loop env st1 rest
      (st', Ev.attemptFail :: t)

/-- `NetworkManager.load_config`, lines 62-107: missing config file reports
and returns; a failing config read lands in the `except` branch which
deactivates the station radio; an empty stored SSID reports and returns;
otherwise up to 3 connection attempts run, and if none connects the
station radio is deactivated (lines 100-102). -/
def load_config (env : Env) (st : NMState) : NMState × List Ev :=
  if "network_config.conf" ∈ st.config_files then
    if env.configReadOk then
      if env.configSsid = "" then (st, [Ev.noSsid])
      else
        let (st1, t1) := attempt_loop env st [env.a1, env.a2, env.a3]
        if st1.sta_connected then (st1, t1)
        else ({st1 with sta_active := false}, t1 ++ [Ev.allAttemptsFailed])
    else ({st with sta_active := false}, [Ev.loadError])
  else (st, [Ev.noSavedConfig])

/-- `NetworkManager.start_captive_portal_server`, lines 379-392: with no
`ip_address` it reports and returns; otherwise `asyncio.start_server`
either raises (reported, then the coroutine returns) or succeeds, after
which `while True: await asyncio.sleep(1)` keeps the coroutine alive
forever — it never returns to its caller.  `fuel` bounds how much of that
infinite sleep trace is observed; the final `Bool` says whether the
coroutine returned to its caller. -/
def start_captive_portal_server (env : Env) (fuel : Nat) (st : NMState) :
    NMState × List Ev × Bool :=
  match st.ip_address with
  | none => (st, [Ev.portalNoIp], true)
  | some _ =>
    if env.portalBindOk then
      ({st with server_running := true},
        Ev.portalServing :: List.replicate fuel Ev.portalSleep, false)
    else (st, [Ev.portalStartError], true)

/-- The entry of `NetworkManagerDNS.start_dns`, lines 467-473: socket
creation and bind, making the redirector live.  (Claim C1 is about whether
`run` ever reaches this call.) -/
def start_dns_entry (st : NMState) : NMState × List Ev :=
  ({st with dns_running := true}, [Ev.dnsStarted])

/-- One pass of the body of `run`'s `while True` loop, lines 416-433, for a
station that is not connected: reload the saved configuration and, if the
station still is not connected, start the AP, then await
`start_captive_portal_server`, then — only if that coroutine returns —
await `dns_server.start_dns()` (line 425).  The final `Bool` says whether
the pass ran to completion (`false`: still suspended inside the portal
server's keep-alive loop when `fuel` ran out). -/
def run_iter (env : Env) (fuel : Nat) (st : NMState) : NMState × List Ev × Bool :=
  if st.sta_connected then (st, [], true)
  else
    let (st1, t1) := load_config env st
    if st1.sta_connected then (st1, t1, true)
    else
      let (st2, t2) := start_ap st1
      let (st3, t3, ret) := start_captive_portal_server env fuel st2
      if ret then
        let (st4, t4) := start_dns_entry st3
        (st4, t1 ++ t2 ++ t3 ++ t4, true)
      else (st3, t1 ++ t2 ++ t3, false)

/-- The cleanup (`finally`) block of `run`, lines 436-452.  One single
`try ... except` wraps all five stop steps: stop the STA web server
(external, can raise), disconnect the station, and — when the AP reports
connected — stop the DNS redirector (its `udp_server.close()` is
unguarded and can raise), the portal HTTP server, and the AP.  An
exception caught by the shared handler abandons the remaining steps; the
final `Bool` reports whether an exception escaped the block (never). -/
def run_cleanup (env : Env) (st : NMState) : NMState × List Ev × Bool :=
  if st.has_web ∧ env.appStopFails then (st, [Ev.stopApp, Ev.cleanupError], false)
  else
    let t1 : List Ev := if st.has_web then [Ev.stopApp] else []
    let (st2, t2) := if st.sta_connected then disconnect_from_wifi st else (st, [])
    if st2.ap_connected then
      if st2.dns_running ∧ env.dnsCloseFails then
        (st2, t1 ++ t2 ++ [Ev.cleanupError], false)
      else
        let (st3, t3) := stop_dns st2
        let (st4, t4) := stop_captive_portal_server st3
        let (st5, t5) := stop_ap st4
        (st5, t1 ++ t2 ++ t3 ++ t4 ++ t5, false)
    else (st2, t1 ++ t2, false)

/-- Spec-side description of the cleanup trace when no stop step fails,
following the claim's wording: Application Server, station disconnect,
DNS redirector, portal HTTP listener, Access Point, in that order, each
step subject to its guard in the source. -/
def cleanup_order_spec (st : NMState) : List Ev :=
  (if st.has_web then [Ev.stopApp] else []) ++
  (if st.sta_connected then [Ev.staDisconnected] else []) ++
  (if st.ap_connected then
    (if st.dns_running then [Ev.dnsStopped] else []) ++
    (if st.server_running then [Ev.serverStopped] else [Ev.serverAlreadyStopped]) ++
    [Ev.apStopped]
  else [])

/-! ## Concrete inputs used by the witnesses and counterexamples -/

/-- An environment in which every external call succeeds, saved credentials
exist, and no connection attempt gets a link. -/
def baseEnv : Env :=
  { readResult := .ok "", writeOk := true, connectOk := false,
    staIp := "192.168.1.50", scanResult := .ok [], saveOk := true,
    webStartOk := true, configReadOk := true, configSsid := "HomeNet",
    configPassword := "secret", a1 := false, a2 := false, a3 := false,
    portalBindOk := true, appStopFails := false, dnsCloseFails := false }

/-- The state right after the constructor, lines 26-60: nothing active,
no IP, no servers, default AP credentials, a saved config file present. -/
def baseState : NMState :=
  { sta_active := false, sta_connected := false, ap_active := false,
    ap_connected := false, ip_address := none, server_running := false,
    dns_running := false, has_web := false,
    config_files := ["network_config.conf"],
    ap_ssid := "Goat - Captive Portal", ap_password := "password" }

/-- The `run` cleanup counterexample state: everything live (web server
supplied, station connected, AP serving with portal HTTP and DNS up). -/
def stC2 : NMState :=
  { baseState with
    has_web := true, sta_active := true, sta_connected := true,
    ap_active := true, ap_connected := true, server_running := true, dns_running := true,
    ip_address := some "192.168.4.1" }

/-- A plain captive-portal reconnect request. -/
def reconnectRequest : String := "POST /reconnect HTTP/1.1\r\nHost: portal.local\r\n\r\n"

/-- A connect request whose form body carries an `ssid` but no `password`. -/
def connectReqMissing : String :=
  "POST /connect HTTP/1.1\r\nHost: portal.local\r\n\r\nssid=HomeNet"

/-- A connect request with `+` and `%20` encoded spaces in its form body. -/
def formExampleRequest : String :=
  "POST /connect HTTP/1.1\r\nHost: portal\r\n\r\nssid=My+Wifi&password=pa%20ss"

/-- A state with the station radio active (e.g. just after a scan started). -/
def stC6 : NMState := { baseState with sta_active := true }

/-- A well-formed DNS A query for `www`: 12-byte header
(id `0xabcd`, one question), the question name `3www0`, type A, class IN. -/
def dnsQueryExample : List Nat :=
  [0xab, 0xcd, 0x01, 0x00, 0x00, 0x01, 0x00, 0x00, 0x00, 0x00, 0x00, 0x00,
   3, 119, 119, 119, 0, 0x00, 0x01, 0x00, 0x01]

/-- The answer the redirector must produce for `dnsQueryExample`. -/
def dnsAnswerExample : List Nat :=
  [0xab, 0xcd, 0x81, 0x80, 0x00, 0x01, 0x00, 0x01, 0x00, 0x00, 0x00, 0x00,
   3, 119, 119, 119, 0, 0x00, 0x01, 0x00, 0x01,
   0xc0, 0x0c, 0x00, 0x01, 0x00, 0x01, 0x00, 0x00, 0x00, 0x3c, 0x00, 0x04,
   192, 168, 4, 1]

/-! ## Helper lemmas -/

/-- `replace20Space` passes a head character through whenever the list does
not start with the pattern `"%20"`. -/
theorem replace20_cons (c : Char) (X : List Char)
    (h : ∀ Y : List Char, c :: X ≠ '%' :: '2' :: '0' :: Y) :
    replace20Space (c :: X) = c :: replace20Space X := by
  rw [replace20Space.eq_def]
  split
  · simp_all
  · rename_i heq; exact absurd heq (by intro hh; cases hh; exact h _ rfl)
  · rename_i heq; cases heq; rfl

/-- `specDecode` passes a head character through whenever no pattern
applies. -/
theorem specDecode_cons (c : Char) (X : List Char)
    (h : ∀ Y : List Char, c :: X ≠ '%' :: '2' :: '0' :: Y) (h2 : c ≠ '+') :
    specDecode (c :: X) = c :: specDecode X := by
  rw [specDecode.eq_def]
  split
  · simp_all
  · rename_i heq; exact absurd heq (by intro hh; cases hh; exact h _ rfl)
  · rename_i heq; cases heq; simp_all
  · rename_i heq; cases heq; rfl

/-- The character `replacePlusSpace` emits equals `d` (for `d` neither a
space nor substitutable) exactly when the input character was `d`. -/
theorem replacePlus_head (a d : Char) (hd1 : d ≠ ' ') :
    ((if a == '+' then ' ' else a) = d) → a = d := by
  by_cases h : a = '+'
  · subst h; simp; intro hh; exact absurd hh.symm hd1
  · simp [h]

/-- If the plus-replacement of `t` starts with `"20"` then `t` itself did:
the one-for-one replacement only introduces spaces. -/
theorem replacePlusSpace_cons20 (t Y : List Char)
    (h : replacePlusSpace t = '2' :: '0' :: Y) : ∃ t1, t = '2' :: '0' :: t1 := by
  match t with
  | [] => simp [replacePlusSpace] at h
  | a :: t' =>
    rw [show replacePlusSpace (a :: t') = (if a == '+' then ' ' else a) :: replacePlusSpace t' from rfl] at h
    injection h with h1 h2
    have ha : a = '2' := replacePlus_head a '2' (by decide) h1
    match t' with
    | [] => simp [replacePlusSpace] at h2
    | b :: t'' =>
      rw [show replacePlusSpace (b :: t'') = (if b == '+' then ' ' else b) :: replacePlusSpace t'' from rfl] at h2
      injection h2 with h3 h4
      have hb : b = '0' := replacePlus_head b '0' (by decide) h3
      exact ⟨t'', by rw [ha, hb]⟩

/-- The source's sequential `replace("+", " ").replace("%20", " ")` agrees
with the specification's single-pass description on every string: neither
replacement can create or destroy an occurrence seen by the other (the
first is one-for-one and only introduces spaces, which occur in neither
pattern). -/
theorem decode_value_spec : ∀ v : List Char, decode_value v = specDecode v := by
  intro v
  induction v using specDecode.induct with
  | case1 => rfl
  | case2 t ih =>
    show replace20Space (replacePlusSpace ('%' :: '2' :: '0' :: t)) = ' ' :: specDecode t
    rw [show replacePlusSpace ('%' :: '2' :: '0' :: t) = '%' :: '2' :: '0' :: replacePlusSpace t from rfl]
    rw [show replace20Space ('%' :: '2' :: '0' :: replacePlusSpace t) = ' ' :: replace20Space (replacePlusSpace t) from rfl]
    exact congrArg _ ih
  | case3 t ih =>
    show replace20Space (replacePlusSpace ('+' :: t)) = ' ' :: specDecode t
    rw [show replacePlusSpace ('+' :: t) = ' ' :: replacePlusSpace t from rfl]
    rw [show replace20Space (' ' :: replacePlusSpace t) = ' ' :: replace20Space (replacePlusSpace t) from rfl]
    exact congrArg _ ih
  | case4 c t hpat hplus ih =>
    have hplus' : c ≠ '+' := fun hh => hplus hh
    show replace20Space (replacePlusSpace (c :: t)) = specDecode (c :: t)
    have h1 : replacePlusSpace (c :: t) = c :: replacePlusSpace t := by
      rw [show replacePlusSpace (c :: t) = (if c == '+' then ' ' else c) :: replacePlusSpace t from rfl]
      simp [hplus']
    rw [h1]
    rw [replace20_cons c (replacePlusSpace t) (by
      intro Y hY
      injection hY with hc ht
      obtain ⟨t1, ht1⟩ := replacePlusSpace_cons20 t Y ht
      exact hpat t1 hc ht1)]
    rw [specDecode_cons c t (by
      intro Y hY
      injection hY with hc ht
      exact hpat Y hc ht) hplus']
    exact congrArg _ ih

/-! ## Claim theorems -/

/-- C1: the claim says that after 3 failed station attempts and a failed
re-attempt, `run` deactivates the station radio and starts AP, portal
HTTP listener and DNS redirector together.  The code disagrees: once
`start_ap` and `asyncio.start_server` succeed, the awaited
`start_captive_portal_server` coroutine sits in `while True:
await asyncio.sleep(1)` and never returns, so `dns_server.start_dns()`
on line 425 is never reached — for every observation length `fuel`, the
station radio is down, the AP and the portal HTTP server are up, but the
DNS redirector never starts and the loop pass never completes. -/
theorem C1_fallback_never_starts_dns (fuel : Nat) :
    (run_iter baseEnv fuel baseState).1.sta_active = false ∧
    (run_iter baseEnv fuel baseState).1.ap_active = true ∧
    (run_iter baseEnv fuel baseState).1.server_running = true ∧
    (run_iter baseEnv fuel baseState).1.dns_running = false ∧
    Ev.dnsStarted ∉ (run_iter baseEnv fuel baseState).2.1 ∧
    (run_iter baseEnv fuel baseState).2.2 = false := by
  have hr : run_iter baseEnv fuel baseState =
      ({ sta_active := false, sta_connected := false, ap_active := true, ap_connected := false,
         ip_address := some "192.168.4.1", server_running := true, dns_running := false,
         has_web := false, config_files := ["network_config.conf"],
         ap_ssid := "Goat - Captive Portal", ap_password := "password" },
       Ev.attemptFail :: Ev.attemptFail :: Ev.attemptFail :: Ev.allAttemptsFailed ::
         Ev.apStarted :: Ev.portalServing :: List.replicate fuel Ev.portalSleep, false) := rfl
  refine ⟨rfl, rfl, rfl, rfl, ?_, rfl⟩
  rw [hr]
  intro hmem
  simp [List.mem_cons, List.mem_replicate] at hmem

/-- C2 counterexample: the claim says every stop step of `run`'s cleanup
is individually guarded, so a failure in one step cannot prevent later
steps.  With the STA web server's stop raising and the station connected,
the station-disconnect step is never attempted: the single shared
`try ... except` abandons it. -/
theorem C2_counterexample :
    stC2.sta_connected = true ∧
    Ev.staDisconnected ∉ (run_cleanup { baseEnv with appStopFails := true } stC2).2.1 := by
  decide

/-- C2 (amended): on shutdown the stop steps run in the order Application
Server, station disconnect, DNS redirector, portal HTTP listener, Access
Point, and no exception escapes the cleanup; but the steps share one
guard, so when a stop step raises (e.g. the Application Server stop) the
remaining steps are skipped rather than attempted. -/
theorem C2_cleanup_single_guard (env : Env) (st : NMState) :
    (run_cleanup env st).2.2 = false ∧
    (env.appStopFails = false → env.dnsCloseFails = false →
      (run_cleanup env st).2.1 = cleanup_order_spec st) ∧
    (st.has_web = true → env.appStopFails = true →
      (run_cleanup env st).2.1 = [Ev.stopApp, Ev.cleanupError]) := by
  obtain ⟨sa, sc, aa, ac, ip, sr, dr, hw, cf, ssd, pw⟩ := st
  obtain ⟨rr, wo, co, si, scr, so, wso, cro, cs, cp, a1, a2, a3, pb, asf, dcf⟩ := env
  refine ⟨?_, ?_, ?_⟩
  · rcases hw <;> rcases asf <;> rcases sc <;> rcases ac <;> rcases dr <;> rcases dcf <;>
      simp [run_cleanup, disconnect_from_wifi, stop_dns, stop_captive_portal_server, stop_ap]
  · intro h1 h2
    subst h1; subst h2
    rcases hw <;> rcases sc <;> rcases ac <;> rcases dr <;> rcases sr <;>
      simp [run_cleanup, cleanup_order_spec, disconnect_from_wifi, stop_dns,
        stop_captive_portal_server, stop_ap]
  · intro h1 h2
    simp at h1 h2
    subst h1; subst h2
    simp [run_cleanup]

/-- Witness for C2: concrete cleanups — one with nothing failing follows
the full documented order, one with the Application Server stop failing
stops right there. -/
theorem C2_cleanup_single_guard_witness :
    (run_cleanup baseEnv stC2).2.1 = cleanup_order_spec stC2 ∧
    (run_cleanup { baseEnv with appStopFails := true } stC2).2.1 =
      [Ev.stopApp, Ev.cleanupError] :=
  ⟨(C2_cleanup_single_guard baseEnv stC2).2.1 rfl rfl,
   (C2_cleanup_single_guard { baseEnv with appStopFails := true } stC2).2.2 rfl rfl⟩

/-- C3: for every datagram whose question section parses, the DNS answer
is byte-exact — transaction id, flags `0x8180`, the query's question
count, counts `1/0/0`, the query bytes from offset 12 verbatim, then
`0xC00C`, type A, class IN, TTL 60, RDLENGTH 4 and the portal address;
every parse failure yields the empty byte string. -/
theorem C3_dns_answer_format (answer_ip data : List Nat) :
    ((decode_domain_name (data.drop 12)).isSome = true →
      handle_dns_query answer_ip data =
        data.take 2 ++ [0x81, 0x80] ++ (data.drop 4).take 2 ++ [0x00, 0x01] ++
        [0x00, 0x00] ++ [0x00, 0x00] ++ data.drop 12 ++ [0xc0, 0x0c] ++
        [0x00, 0x01] ++ [0x00, 0x01] ++ [0x00, 0x00, 0x00, 0x3c] ++ [0x00, 0x04] ++ answer_ip) ∧
    ((decode_domain_name (data.drop 12)).isSome = false →
      handle_dns_query answer_ip data = []) := by
  constructor <;> intro h <;>
    rcases hd : decode_domain_name (data.drop 12) with _ | ls <;>
    simp [hd] at h <;> simp [handle_dns_query, hd]

/-- Witness for C3: the concrete `www` query gets the concrete
redirecting answer; a 2-byte datagram gets the empty response. -/
theorem C3_dns_answer_format_witness :
    handle_dns_query [192, 168, 4, 1] dnsQueryExample = dnsAnswerExample ∧
    handle_dns_query [192, 168, 4, 1] [0xab, 0xcd] = [] := by
  constructor
  · exact ((C3_dns_answer_format [192, 168, 4, 1] dnsQueryExample).1 (by decide)).trans (by decide)
  · exact (C3_dns_answer_format [192, 168, 4, 1] [0xab, 0xcd]).2 (by decide)

/-- C4: with an AP password shorter than 8 characters, `start_ap` only
reports: the state (radios, interface configuration, stored IP) is
returned unchanged and nothing is raised. -/
theorem C4_short_password_noop (st : NMState) (h : st.ap_password.length < 8) :
    start_ap st = (st, [Ev.apPwTooShort]) := by
  simp [start_ap, h]

/-- Witness for C4: the 5-character password `"short"`. -/
theorem C4_short_password_noop_witness :
    start_ap { baseState with ap_password := "short" } =
      ({ baseState with ap_password := "short" }, [Ev.apPwTooShort]) :=
  C4_short_password_noop { baseState with ap_password := "short" } (by decide)

/-- C5: the claim says a `POST /reconnect` request is answered with
`HTTP/1.1 200 OK` and an HTML result page.  The code disagrees: line 191
calls `self.reconnect_to_wifi()` without the `request` argument the
method requires, so the call raises `TypeError`, the handler's `except`
swallows it, and the client connection is closed with no response bytes
at all. -/
theorem C5_reconnect_no_response :
    (handle_request { baseEnv with readResult := .ok reconnectRequest } baseState).written = none ∧
    (handle_request { baseEnv with readResult := .ok reconnectRequest } baseState).closed = true ∧
    (handle_request { baseEnv with readResult := .ok reconnectRequest } baseState).escaped = false := by
  decide

/-- C6 counterexample: the claim says a connect request with a missing
field leaves the station interface's active state exactly as it was.
From a state with the station radio active, the missing-password request
leaves the radio deactivated (line 284, `self.sta_if.active(False)`). -/
theorem C6_counterexample :
    ¬ ((connect_to_wifi connectReqMissing baseEnv stC6).2.1.sta_active = stC6.sta_active) := by
  decide

/-- C6 (amended): on a missing ssid or password field, `connect_to_wifi`
returns the connection-error page, issues no connect attempt and leaves
the stored IP address unchanged — but it deactivates the station radio
rather than leaving its active state untouched. -/
theorem C6_missing_fields (request : String) (env : Env) (st : NMState)
    (h : dictGet (parse_params request) "ssid" "" = "" ∨
         dictGet (parse_params request) "password" "" = "") :
    connect_to_wifi request env st =
      (html_template "Goat - Captive Portal"
        "<h2>Connection Error</h2>\n                <p>The SSID or password for the wi-fi network was not provided.</p>",
       { st with sta_active := false, sta_connected := false }, []) := by
  unfold connect_to_wifi
  rcases h with h | h <;> simp [h]

/-- Witness for C6: the request whose body only carries an `ssid`. -/
theorem C6_missing_fields_witness :
    connect_to_wifi connectReqMissing baseEnv stC6 =
      (html_template "Goat - Captive Portal"
        "<h2>Connection Error</h2>\n                <p>The SSID or password for the wi-fi network was not provided.</p>",
       { stC6 with sta_active := false, sta_connected := false }, []) :=
  C6_missing_fields connectReqMissing baseEnv stC6 (Or.inr (by decide))

/-- C7: the form decoder splits the body after the first `"\r\n\r\n"` on
`"&"`, splits each pair at the first `"="`, and decodes values by
replacing every `+` and every literal `%20` with a space while leaving
every other percent-escape untouched (the sequential replaces of the
source agree with that single-pass description on all inputs); on the
example body `ssid=My+Wifi&password=pa%20ss` it yields
`ssid = "My Wifi"` and `password = "pa ss"`. -/
theorem C7_form_decoding :
    (∀ v : List Char, decode_value v = specDecode v) ∧
    dictGet (parse_params formExampleRequest) "ssid" "" = "My Wifi" ∧
    dictGet (parse_params formExampleRequest) "password" "" = "pa ss" := by
  refine ⟨decode_value_spec, ?_, ?_⟩ <;> decide

/-- C8: `handle_request` closes the client writer on every path — read
failure, dispatch failure (including the reconnect `TypeError`), write
failure and success alike — and never lets an exception escape to its
caller. -/
theorem C8_handler_closes_writer (env : Env) (st : NMState) :
    (handle_request env st).closed = true ∧ (handle_request env st).escaped = false := by
  rcases h : env.readResult with e | req
  · simp [handle_request, h]
  · rcases h2 : dispatch req env st with e | ⟨resp, st1, tr⟩
    · simp [handle_request, h, h2]
    · rcases hw : env.writeOk <;> simp [handle_request, h, h2, hw]

set_option maxRecDepth 200000 in
/-- C9: the index page always carries the `/scan` link, and carries the
`POST /reconnect` form exactly when the configuration directory listing
contains the saved config file. -/
theorem C9_index_page (files : List String) :
    strContains (serve_index files) "<a href='/scan'>Start Scan</a>" = true ∧
    (strContains (serve_index files) "<form action=\"/reconnect\" method=\"post\">" = true ↔
      "network_config.conf" ∈ files) := by
  by_cases h : "network_config.conf" ∈ files <;>
    simp only [serve_index, h, if_true, if_false, iff_true, iff_false] <;>
    constructor
  · decide
  · decide
  · decide
  · decide

/-- Witness for C9: with the config file listed the form is on the page;
with an empty listing the scan link still is. -/
theorem C9_index_page_witness :
    strContains (serve_index ["network_config.conf"])
      "<form action=\"/reconnect\" method=\"post\">" = true ∧
    strContains (serve_index []) "<a href='/scan'>Start Scan</a>" = true :=
  ⟨(C9_index_page ["network_config.conf"]).2.mpr (by decide), (C9_index_page []).1⟩

/-- C10: the socket wrappers return immediately on a successful operation,
yield exactly once and retry on `OSError` errno 11, and re-raise any
`OSError` with a different errno. -/
theorem C10_socket_retry :
    (∀ (d : List Nat) (a : Nat) (rest : List RecvAttempt),
        receive_from (RecvAttempt.ok d a :: rest) = LoopOutcome.done (d, a) 0) ∧
    (∀ (e : Nat) (rest : List RecvAttempt), e ≠ 11 →
        receive_from (RecvAttempt.err e :: rest) = LoopOutcome.raised e 0) ∧
    (∀ rest : List RecvAttempt,
        receive_from (RecvAttempt.err 11 :: rest) = bumpYield (receive_from rest)) ∧
    (∀ rest : List SendAttempt, send_to (SendAttempt.ok :: rest) = LoopOutcome.done () 0) ∧
    (∀ (e : Nat) (rest : List SendAttempt), e ≠ 11 →
        send_to (SendAttempt.err e :: rest) = LoopOutcome.raised e 0) ∧
    (∀ rest : List SendAttempt,
        send_to (SendAttempt.err 11 :: rest) = bumpYield (send_to rest)) := by
  refine ⟨fun d a rest => rfl, fun e rest h => ?_, fun rest => rfl, fun rest => rfl,
    fun e rest h => ?_, fun rest => rfl⟩
  · simp [receive_from, h]
  · simp [send_to, h]

/-- Witness for C10: one would-block retry followed by a real error
re-raise, and one would-block retry followed by a successful send. -/
theorem C10_socket_retry_witness :
    receive_from [RecvAttempt.err 11, RecvAttempt.err 9] = LoopOutcome.raised 9 1 ∧
    send_to [SendAttempt.err 11, SendAttempt.ok] = LoopOutcome.done () 1 := by
  constructor
  · rw [C10_socket_retry.2.2.1 [RecvAttempt.err 9],
      C10_socket_retry.2.1 9 [] (by decide)]
    rfl
  · rw [C10_socket_retry.2.2.2.2.2 [SendAttempt.ok],
      C10_socket_retry.2.2.2.1 []]
    rfl
